import Mathlib

/-
Verification of the global-handlers interception-and-normalization engine
(browser integration `GlobalHandlers`, file
`src/packages/browser/src/integrations/globalhandlers.ts`).

The embedding models JavaScript values shallowly: objects carry a class tag
(used by the duck-typing checks `isErrorEvent` / `isError`), a list of own
enumerable fields, and a flag telling whether probing the `reason` property
throws.  External collaborators that live outside the provided source
(`_computeStackTrace`, the hub, the sanitization utilities) are either
parameters of an `Env` record or are modelled from the specification, as
noted on each definition.
-/

namespace SentryGH

/-- JavaScript class tag, as observed by the duck-typing helpers of the
utils package: a plain object, an `ErrorEvent` wrapper, or an `Error`. -/
inductive JSClass where
  | plain
  | errorEvent
  | errObj
deriving DecidableEq

/-- Shallow model of a JavaScript value.  Objects carry their class tag,
their own enumerable fields, and whether probing `reason` throws. -/
inductive JSValue where
  | undefined
  | null
  | bool (b : Bool)
  | num (n : Int)
  | str (s : String)
  | obj (cls : JSClass) (fields : List (String × JSValue)) (reasonThrows : Bool)

/-- JavaScript truthiness. -/
def truthy : JSValue → Bool
  | .undefined => false
  | .null => false
  | .bool b => b
  | .num n => n != 0
  | .str s => s != ""
  | .obj _ _ _ => true

/-- `isString` from the utils package. -/
def isString : JSValue → Bool
  | .str _ => true
  | _ => false

/-- `isErrorEvent` from the utils package. -/
def isErrorEvent : JSValue → Bool
  | .obj .errorEvent _ _ => true
  | _ => false

/-- `isError` from the utils package. -/
def isError : JSValue → Bool
  | .obj .errObj _ _ => true
  | _ => false

/-- `isPrimitive` from the utils package: everything that is not an object. -/
def isPrimitive : JSValue → Bool
  | .obj _ _ _ => false
  | _ => true

/-- Property read `v[k]`: an own field of an object, `undefined` otherwise. -/
def getField : JSValue → String → JSValue
  | .obj _ fs _, k =>
    match fs.lookup k with
    | some v => v
    | none => .undefined
  | _, _ => .undefined

/-- Strict equality against the literal `true` (`=== true`). -/
def jsIsTrue : JSValue → Bool
  | .bool true => true
  | _ => false

/-- String conversion as performed by a template literal, for the values
this model covers. -/
def jsToString : JSValue → String
  | .undefined => "undefined"
  | .null => "null"
  | .bool true => "true"
  | .bool false => "false"
  | .num n => toString n
  | .str s => s
  | .obj _ _ _ => "[object Object]"

/-- `Object.keys`: the own enumerable keys of an object. -/
def jsOwnKeys : JSValue → List String
  | .obj _ fs _ => fs.map Prod.fst
  | _ => []

/-! ## The failure-label pattern `ERROR_TYPES_RE`

The wrapper matches string messages against
`^(?:[Uu]ncaught (?:exception: )?)?(?:((?:Eval|Internal|Range|Reference|Syntax|Type|URI|)Error): )?(.*)$`.
Without the multiline flag, `.` matches no line terminator and `$` only the
end of input, so the match fails exactly when the message contains a line
terminator; otherwise the greedy optional groups strip a literal
"Uncaught " / "uncaught " (optionally followed by "exception: ") from the
front, then an optional error-type label followed by ": ", and capture
group 2 is the remaining text. -/

/-- JavaScript line terminators (`\n`, `\r`, U+2028, U+2029). -/
def jsLineTerm (c : Char) : Bool :=
  c == '\n' || c == '\r' || c == Char.ofNat 0x2028 || c == Char.ofNat 0x2029

/-- Strip a literal from the front of a character list. -/
def charsDropLit : List Char → List Char → Option (List Char)
  | [], s => some s
  | _ :: _, [] => none
  | p :: ps, c :: cs => if p == c then charsDropLit ps cs else none

/-- Strip a literal string from the front. -/
def dropLit (p : String) (s : List Char) : Option (List Char) :=
  charsDropLit p.data s

/-- The alternatives of the error-type group, in the order they are tried
(the final empty alternative makes a bare "Error: " label match). -/
def errorLabelNames : List String :=
  ["Eval", "Internal", "Range", "Reference", "Syntax", "Type", "URI", ""]

/-- Try each label alternative followed by "Error: " at the front. -/
def findLabel : List String → List Char → Option (String × List Char)
  | [], _ => none
  | l :: ls, s =>
    match dropLit (l ++ "Error: ") s with
    | some rest => some (l ++ "Error", rest)
    | none => findLabel ls s

/-- Strip the optional greedy `(?:[Uu]ncaught (?:exception: )?)?` group. -/
def dropUncaught (s : List Char) : List Char :=
  match dropLit "Uncaught " s with
  | some r =>
    match dropLit "exception: " r with
    | some r2 => r2
    | none => r
  | none =>
    match dropLit "uncaught " s with
    | some r =>
      match dropLit "exception: " r with
      | some r2 => r2
      | none => r
    | none => s

/-- `message.match(ERROR_TYPES_RE)`: `none` when the whole-string match
fails (a line terminator is present); otherwise the captured type label
(group 1, `none` when the optional group did not participate) and the
remaining message text (group 2). -/
def errorTypesMatch (s : String) : Option (Option String × String) :=
  if s.data.any jsLineTerm then none
  else
    let rest := dropUncaught s.data
    match findLabel errorLabelNames rest with
    | some (n, r) => some (some n, String.mk r)
    | none => some (none, String.mk rest)

example : errorTypesMatch "Uncaught TypeError: x is not a function" =
    some (some "TypeError", "x is not a function") := by decide
example : errorTypesMatch "Script error." = some (none, "Script error.") := by decide
example : errorTypesMatch "line1\nline2" = none := by decide

/-! ## Rejection-reason extraction (`let error = e; try ... catch`) -/

/-- Result of evaluating a JavaScript expression that may throw. -/
inductive Probe (α : Type) where
  | ok (v : α)
  | thrown
deriving DecidableEq

/-- `"reason" in e`: throws on primitives and on objects whose probe
throws; otherwise tells whether the object has an own `reason` field. -/
def inReason : JSValue → Probe Bool
  | .obj _ fs rt => if rt then .thrown else .ok (fs.lookup "reason").isSome
  | _ => .thrown

/-- Whether an object exposes an own `reason` property. -/
def hasReason : JSValue → Bool
  | .obj _ fs _ => (fs.lookup "reason").isSome
  | _ => false

/-- Evaluation of `e && 'reason' in e ? e.reason : e` (the guarded
expression inside the `try` block of the rejection wrapper). -/
def reasonProbe (e : JSValue) : Probe JSValue :=
  if truthy e then
    match inReason e with
    | .thrown => .thrown
    | .ok true => .ok (getField e "reason")
    | .ok false => .ok e
  else .ok e

/-- `let error = e; try { error = e && 'reason' in e ? e.reason : e }
catch (_oO) {}` — the extraction never propagates: a throw leaves the
original input in place. -/
def extractReason (e : JSValue) : JSValue :=
  match reasonProbe e with
  | .ok v => v
  | .thrown => e

/-! ## Data model: canonical stack traces and telemetry events -/

/-- A stack frame of a canonical trace (TraceKit `StackFrame`). -/
structure Frame where
  args : List JSValue := []
  column : JSValue := .undefined
  func : String := "?"
  line : JSValue := .undefined
  url : JSValue := .undefined

/-- TraceKit `StackTrace`: the canonical stack-trace representation.
`mechanism` is unset on the value returned by the stack-computation
collaborator and assigned by the wrappers immediately afterwards. -/
structure Trace where
  mechanism : Option String := none
  message : JSValue := .undefined
  mode : String := ""
  name : JSValue := .undefined
  stack : List Frame := []
  original : JSValue := .undefined

/-- `Mechanism` attached to an exception value. -/
structure Mechanism where
  data : List (String × JSValue)
  handled : Bool
  type : String

/-- One entry of `event.exception.values`. -/
structure ExceptionValue where
  type : JSValue := .undefined
  value : JSValue := .undefined
  mechanism : Option Mechanism := none

/-- Severity levels (`@sentry/types`). -/
inductive Severity where
  | fatal
  | error
  | warning
  | log
  | info
  | debug
deriving DecidableEq

/-- A telemetry event, restricted to the fields this integration touches.
`exception` stands for `event.exception.values`. -/
structure Event where
  level : Option Severity := none
  exception : Option (List ExceptionValue) := none
  extra : Option (List (String × JSValue)) := none

/-! ## External collaborators -/

/-- The collaborators the wrappers consume, with the run-time state they
read: the integration-active check, the suppression predicate, the
stack-computation collaborator, and the sanitization utilities.  All of
them live outside the provided source and are kept abstract. -/
structure Env where
  hasIntegration : Bool
  shouldIgnoreOnError : Bool
  computeStackTrace : JSValue → Trace
  clientMaxValueLength : Option Nat
  normalizeToSize : JSValue → JSValue
  keysToEventMessage : List String → String
  serializeNormalized : JSValue → String
  truncate : String → Nat → String
  locationHref : String

/-- Lexicographic comparison of character lists by code point, modelling
the default JavaScript string comparison used by `Array.prototype.sort`. -/
def charsLe : List Char → List Char → Bool
  | [], _ => true
  | _ :: _, [] => false
  | a :: as, b :: bs =>
    if a.val < b.val then true
    else if b.val < a.val then false
    else charsLe as bs

/-- Insert a string into a sorted list. -/
def insertSorted (x : String) : List String → List String
  | [] => [x]
  | y :: ys => if charsLe x.data y.data then x :: y :: ys else y :: insertSorted x ys

/-- `Array.prototype.sort()` on a list of keys (default lexicographic
string order). -/
def sortKeys : List String → List String
  | [] => []
  | x :: xs => insertSorted x (sortKeys xs)

example : sortKeys ["b", "a"] = ["a", "b"] := by decide

/-- JavaScript `a || b` for the values stored in an exception entry. -/
def jsOr (a b : JSValue) : JSValue :=
  if truthy a then a else b

/-- Modelled from the spec: the stack-to-event collaborator
(`eventFromStacktrace` of the browser `parsers.ts`, which is not part of
the provided source).  Per section 4.4 step 3 and section 6 it performs the
base conversion of the trace into exception values; the `mechanism` is
attached only afterwards by the builder (section 4.4 step 7), so the base
entry carries none. -/
def eventFromStacktrace (t : Trace) : Event :=
  { exception := some [{ type := t.name, value := t.message, mechanism := none }] }

/-- Modelled from the spec: `addExceptionTypeValue` of the shared utils
package (not part of the provided source).  Per section 4.4 step 7 it
attaches the fallback type/value and the given mechanism onto the event's
first exception entry, creating that entry when the base conversion
produced none, "ensuring every event has exactly one guaranteed exception
entry". -/
def addExceptionTypeValue (ev : Event) (value ty : String) (mech : Mechanism) : Event :=
  let vals := ev.exception.getD []
  let v0 := vals.headD {}
  let v0 := { v0 with
    value := jsOr v0.value (jsOr (.str value) (.str "")),
    type := jsOr v0.type (jsOr (.str ty) (.str "Error")),
    mechanism := some mech }
  { ev with exception := some (v0 :: vals.tail) }

/-- The `data` map assembled for the mechanism: `mode` always, `message`
and `name` when truthy (lines 221-231 and 286-290 of the source). -/
def mechData (t : Trace) : List (String × JSValue) :=
  ("mode", .str t.mode) ::
    ((if truthy t.message then [("message", t.message)] else []) ++
     (if truthy t.name then [("name", t.name)] else []))

/-- The message-repair step at the top of `_eventFromGlobalHandler`
(lines 206-213): when `stacktrace.message` is not a string and the trace's
mechanism is not `onunhandledrejection`, the message is overwritten with
the nested `message.error.message` when that is a string, else with the
placeholder "No error message". -/
def repairMessage (t : Trace) : Trace :=
  if !isString t.message && !(t.mechanism == some "onunhandledrejection") then
    { t with message :=
        if truthy (getField t.message "error") &&
            isString (getField (getField t.message "error") "message") then
          getField (getField t.message "error") "message"
        else .str "No error message" }
  else t

/-- `_eventFromIncompleteRejection` (lines 256-297): the degraded builder
used when only partial stack information exists. -/
def eventFromIncompleteRejection (env : Env) (t : Trace) (handler : String)
    (error : JSValue) : Event :=
  let event : Event :=
    if isPrimitive error then
      let v : ExceptionValue :=
        { type := .str "UnhandledRejection",
          value := .str ("Non-Error promise rejection captured with value: " ++
            jsToString error) }
      { level := some Severity.error, exception := some [v] }
    else
      let v : ExceptionValue :=
        { type := .str "UnhandledRejection",
          value := .str ("Non-Error promise rejection captured with keys: " ++
            env.keysToEventMessage (sortKeys (jsOwnKeys error))) }
      { level := some Severity.error, exception := some [v],
        extra := some [("__serialized__", env.normalizeToSize error)] }
  match event.exception with
  | some (v0 :: rest) =>
    let mech : Mechanism := { data := mechData t, handled := false, type := handler }
    { event with exception := some ({ v0 with mechanism := some mech } :: rest) }
  | _ => event

/-- The effective `maxValueLength` (line 234): the active client's
configured value when truthy, else 250. -/
def effectiveMaxValueLength (env : Env) : Nat :=
  match env.clientMaxValueLength with
  | some n => if n == 0 then 250 else n
  | none => 250

/-- `_eventFromGlobalHandler` (lines 205-249).  The second component of
the result is the trace as it stands after the call: the source mutates
the passed trace in the message-repair step, so the builder is modelled as
also returning the updated trace. -/
def eventFromGlobalHandler (env : Env) (t0 : Trace) (handler : String)
    (error : JSValue) : Event × Trace :=
  let t := repairMessage t0
  if handler == "onunhandledrejection" && t.mode == "failed" then
    (eventFromIncompleteRejection env t handler error, t)
  else
    let ev := eventFromStacktrace t
    let fallbackValue :=
      if truthy t.original then
        env.truncate (env.serializeNormalized t.original) (effectiveMaxValueLength env)
      else ""
    let fallbackType := if handler == "onunhandledrejection" then "UnhandledRejection" else "Error"
    (addExceptionTypeValue ev fallbackValue fallbackType
      { data := mechData t, handled := false, type := handler }, t)

/-! ## The installed hook wrappers

Each wrapper is modelled as a function from its original arguments to the
ordered list of observable effects it performs (submission calls and
invocations of the previously captured handler) plus, for the `onerror`
wrapper, its return value. -/

/-- The observable effects of a wrapper invocation, in order. -/
inductive Effect where
  | capture (ev : Event) (stack : Trace) (originalException : JSValue)
  | callOldOnError (msg url line column e : JSValue)
  | callOldOnRejection (e : JSValue)

/-- The five arguments delivered to the `onerror` hook. -/
structure OnErrorArgs where
  msg : JSValue
  url : JSValue
  line : JSValue
  column : JSValue
  e : JSValue

/-- `isErrorEvent(e) ? e.error : e` (line 104). -/
def unwrapOnErrorError (a : OnErrorArgs) : JSValue :=
  if isErrorEvent a.e then getField a.e "error" else a.e

/-- `isErrorEvent(msg) ? msg.message : msg` (line 106). -/
def unwrapOnErrorMessage (a : OnErrorArgs) : JSValue :=
  if isErrorEvent a.msg then getField a.msg "message" else a.msg

/-- Convert the captured type label of the pattern to the value stored in
`name` (`groups[1]`, possibly `undefined`). -/
def optStrToJs : Option String → JSValue
  | some s => .str s
  | none => .undefined

/-- Lines 113-121: the name/message computed for the synthetic trace.  The
match result overwrites name and message only when the message is a string
and the pattern matches. -/
def parseMsgNameMessage (message0 : JSValue) : JSValue × JSValue :=
  match message0 with
  | .str s =>
    match errorTypesMatch s with
    | some (n, m) => (optStrToJs n, .str m)
    | none => (.undefined, .str s)
  | v => (.undefined, v)

/-- Lines 123-137: the synthetic single-frame trace built when no usable
error object is available. -/
def syntheticTrace (env : Env) (a : OnErrorArgs) (message0 : JSValue) : Trace :=
  let nm := parseMsgNameMessage message0
  let frame : Frame :=
    { args := [], column := a.column, func := "?", line := a.line,
      url := if truthy a.url then a.url else .str env.locationHref }
  { mechanism := some "onerror", message := nm.2, mode := "onerror",
    name := nm.1, stack := [frame], original := .undefined }

/-- Lines 109-138: the canonical trace computed by the `onerror` wrapper —
the external stack computation (tagged `onerror`) when a real error object
is present, else the synthetic trace. -/
def normalizeOnError (env : Env) (a : OnErrorArgs) : Trace :=
  let error := unwrapOnErrorError a
  if truthy error && isError error then
    { env.computeStackTrace error with mechanism := some "onerror" }
  else
    syntheticTrace env a (unwrapOnErrorMessage a)

/-- `error && error.__sentry_own_request__ === true` (lines 140 and 179). -/
def isFailedOwnDelivery (error : JSValue) : Bool :=
  truthy error && jsIsTrue (getField error "__sentry_own_request__")

/-- The `onerror` wrapper installed at lines 93-153, as a function from
the previously captured handler and the original arguments to the ordered
effects and the return value. -/
def onErrorWrapper (env : Env) (oldHandler : Option (OnErrorArgs → Bool))
    (a : OnErrorArgs) : List Effect × Bool :=
  if !env.hasIntegration then
    match oldHandler with
    | some h => ([.callOldOnError a.msg a.url a.line a.column a.e], h a)
    | none => ([], false)
  else
    let error := unwrapOnErrorError a
    let stack := normalizeOnError env a
    let captureEffs : List Effect :=
      if !env.shouldIgnoreOnError && !isFailedOwnDelivery error then
        let evst := eventFromGlobalHandler env stack "onerror" error
        [.capture evst.1 evst.2 error]
      else []
    match oldHandler with
    | some h => (captureEffs ++ [.callOldOnError a.msg a.url a.line a.column a.e], h a)
    | none => (captureEffs, false)

/-- The `onunhandledrejection` wrapper installed at lines 167-195, as a
function from the presence of a previously captured handler and the
original argument to the ordered effects (its return value is void). -/
def onRejectionWrapper (env : Env) (hasOldHandler : Bool) (e : JSValue) : List Effect :=
  if !env.hasIntegration then []
  else
    let error := extractReason e
    if env.shouldIgnoreOnError || isFailedOwnDelivery error then []
    else
      let stack := { env.computeStackTrace error with mechanism := some "onunhandledrejection" }
      let evst := eventFromGlobalHandler env stack "onunhandledrejection" error
      [Effect.capture evst.1 evst.2 error] ++
        (if hasOldHandler then [Effect.callOldOnRejection e] else [])

/-- Recognizer for submission effects. -/
def isCapture : Effect → Bool
  | .capture _ _ _ => true
  | _ => false

/-- Recognizer for invocations of a previously captured handler. -/
def isCallOld : Effect → Bool
  | .callOldOnError _ _ _ _ _ => true
  | .callOldOnRejection _ => true
  | _ => false

/-- Number of submission calls in an effect list. -/
def countCaptures (effs : List Effect) : Nat := effs.countP isCapture

/-- Number of old-handler invocations in an effect list. -/
def countCallOld (effs : List Effect) : Nat := effs.countP isCallOld

/-- Number of exception values of an event whose mechanism has
`handled = false` and `type` equal to the given handler name. -/
def mechCount (ev : Event) (handler : String) : Nat :=
  (ev.exception.getD []).countP fun v =>
    match v.mechanism with
    | some m => !m.handled && m.type == handler
    | none => false

/-! ## Installation state (`setupOnce` and the two installers)

The global hook slots and the captured previous handlers are modelled as
first-order values: a slot holds nothing, a host handler (identified by a
number), or this integration's wrapper. -/

/-- The value held in a global hook slot or in a captured-handler field. -/
inductive GVal where
  | absent
  | host (id : Nat)
  | wrapper
deriving DecidableEq

/-- The mutable state touched by `setupOnce` and the two installers: the
integration's options and private fields, the two global hook slots, and
`Error.stackTraceLimit`. -/
structure GHState where
  optOnerror : Bool
  optOnunhandledrejection : Bool
  onErrorHandlerInstalled : Bool
  onUnhandledRejectionHandlerInstalled : Bool
  oldOnErrorHandler : GVal
  oldOnUnhandledRejectionHandler : GVal
  globalOnerror : GVal
  globalOnunhandledrejection : GVal
  stackTraceLimit : Int
deriving DecidableEq

/-- `_installGlobalOnErrorHandler` (lines 82-156): a no-op when already
installed, else capture the current global handler and install the
wrapper. -/
def installGlobalOnErrorHandler (s : GHState) : GHState :=
  if s.onErrorHandlerInstalled then s
  else
    { s with oldOnErrorHandler := s.globalOnerror,
             globalOnerror := GVal.wrapper,
             onErrorHandlerInstalled := true }

/-- `_installGlobalOnUnhandledRejectionHandler` (lines 159-198). -/
def installGlobalOnUnhandledRejectionHandler (s : GHState) : GHState :=
  if s.onUnhandledRejectionHandlerInstalled then s
  else
    { s with oldOnUnhandledRejectionHandler := s.globalOnunhandledrejection,
             globalOnunhandledrejection := GVal.wrapper,
             onUnhandledRejectionHandlerInstalled := true }

/-- `setupOnce` (lines 67-79): set `Error.stackTraceLimit = 50`, then run
the installers enabled by the options. -/
def setupOnce (s : GHState) : GHState :=
  let s1 := { s with stackTraceLimit := 50 }
  let s2 := if s1.optOnerror then installGlobalOnErrorHandler s1 else s1
  if s2.optOnunhandledrejection then installGlobalOnUnhandledRejectionHandler s2 else s2

/-! ## Concrete fixtures used by witnesses and counterexamples -/

/-- A concrete collaborator environment with the integration active. -/
def env0 : Env :=
  { hasIntegration := true,
    shouldIgnoreOnError := false,
    computeStackTrace := fun v => { mode := "stack", original := v },
    clientMaxValueLength := none,
    normalizeToSize := fun v => v,
    keysToEventMessage := fun ks => String.intercalate ", " ks,
    serializeNormalized := fun v => jsToString v,
    truncate := fun s _ => s,
    locationHref := "https://example.com/page" }

/-- The environment with the integration-active check failing. -/
def envInactive : Env := { env0 with hasIntegration := false }

/-- The environment with the suppression predicate returning true. -/
def envIgnore : Env := { env0 with shouldIgnoreOnError := true }

/-- A failure value carrying the self-delivery marker. -/
def ownDeliveryFailure : JSValue :=
  .obj .errObj [("__sentry_own_request__", .bool true)] false

/-- A rejection-like input whose `reason` carries the self-delivery
marker. -/
def ownDeliveryRejection : JSValue :=
  .obj .plain [("reason", ownDeliveryFailure)] false

/-- Concrete `onerror` arguments delivering the marked failure. -/
def ownDeliveryArgs : OnErrorArgs :=
  { msg := .str "boom", url := .str "https://example.com/app.js",
    line := .num 3, column := .num 7, e := ownDeliveryFailure }

/-- Plain concrete `onerror` arguments (no error object). -/
def plainArgs : OnErrorArgs :=
  { msg := .str "Uncaught TypeError: x is not a function",
    url := .str "https://example.com/app.js",
    line := .num 3, column := .num 7, e := .undefined }

/-- A concrete trace whose mode is `failed`. -/
def failedTrace : Trace :=
  { mechanism := some "onunhandledrejection", message := .str "boom",
    mode := "failed", name := .undefined, stack := [], original := .undefined }

/-- A concrete trace whose message is not a string (the wrapped-event
shape of issue 1949) and whose mechanism is `onerror`. -/
def objMessageTrace : Trace :=
  { mechanism := some "onerror", message := .obj .plain [] false,
    mode := "onerror", name := .undefined, stack := [], original := .undefined }

/-- A rejection-like input exposing a `reason` property. -/
def reasonedInput : JSValue := .obj .plain [("reason", .str "why")] false

/-- A plain-object rejection reason with keys inserted out of order. -/
def twoKeyReason : JSValue := .obj .plain [("b", .num 1), ("a", .num 2)] false

/-- A rejection-like input whose `reason` probe throws. -/
def throwingInput : JSValue := .obj .plain [] true

/-- A concrete pre-installation state with both options disabled and host
handlers present in both global slots. -/
def ghState0 : GHState :=
  { optOnerror := false, optOnunhandledrejection := false,
    onErrorHandlerInstalled := false, onUnhandledRejectionHandlerInstalled := false,
    oldOnErrorHandler := .absent, oldOnUnhandledRejectionHandler := .absent,
    globalOnerror := .host 1, globalOnunhandledrejection := .host 2,
    stackTraceLimit := 10 }

/-! # Theorems -/

/-- A value whose field reads back as the literal `true` is an object and
hence truthy. -/
theorem truthy_of_marker {v : JSValue} {k : String}
    (h : jsIsTrue (getField v k) = true) : truthy v = true := by
  cases v <;> simp [getField, jsIsTrue, truthy] at h ⊢

/-- Claim C5: calling either install operation a second (or any later)
time is a no-op — the post-state after two install calls equals the
post-state after one, so exactly one previous-handler capture and one
wrapper installation ever happen. -/
theorem c5_install_idempotent (s : GHState) :
    installGlobalOnErrorHandler (installGlobalOnErrorHandler s) =
      installGlobalOnErrorHandler s ∧
    installGlobalOnUnhandledRejectionHandler (installGlobalOnUnhandledRejectionHandler s) =
      installGlobalOnUnhandledRejectionHandler s := by
  constructor
  · by_cases h : s.onErrorHandlerInstalled <;>
      simp [installGlobalOnErrorHandler, h]
  · by_cases h : s.onUnhandledRejectionHandlerInstalled <;>
      simp [installGlobalOnUnhandledRejectionHandler, h]

/-- Claim C10: every `setupOnce` call sets `Error.stackTraceLimit` to 50
unconditionally — even when both hook options are disabled, in which case
the limit assignment is the only state change; the assignment is not
guarded by the installed-flags. -/
theorem c10_stack_trace_limit (s : GHState) :
    (setupOnce s).stackTraceLimit = 50 ∧
    (s.optOnerror = false → s.optOnunhandledrejection = false →
      setupOnce s = { s with stackTraceLimit := 50 }) := by
  constructor
  · by_cases h1 : s.optOnerror <;> by_cases h2 : s.optOnunhandledrejection <;>
      by_cases h3 : s.onErrorHandlerInstalled <;>
        by_cases h4 : s.onUnhandledRejectionHandlerInstalled <;>
          simp [setupOnce, installGlobalOnErrorHandler,
            installGlobalOnUnhandledRejectionHandler, h1, h2, h3, h4]
  · intro h1 h2
    simp [setupOnce, h1, h2]

/-- Claim C10 witness: a concrete `setupOnce` call with both options
disabled still rewrites `stackTraceLimit` to 50 and changes nothing
else. -/
theorem c10_witness :
    (setupOnce ghState0).stackTraceLimit = 50 ∧
    setupOnce ghState0 = { ghState0 with stackTraceLimit := 50 } :=
  ⟨(c10_stack_trace_limit ghState0).1, (c10_stack_trace_limit ghState0).2 rfl rfl⟩

/-- Claim C1: a failure value whose extracted failure carries the
self-delivery marker `__sentry_own_request__ === true` never leads to a
`captureEvent` submission, in either installed wrapper. -/
theorem c1_self_delivery_suppression :
    (∀ (env : Env) (oldHandler : Option (OnErrorArgs → Bool)) (a : OnErrorArgs),
      jsIsTrue (getField (unwrapOnErrorError a) "__sentry_own_request__") = true →
      countCaptures (onErrorWrapper env oldHandler a).1 = 0) ∧
    (∀ (env : Env) (hasOld : Bool) (e : JSValue),
      jsIsTrue (getField (extractReason e) "__sentry_own_request__") = true →
      countCaptures (onRejectionWrapper env hasOld e) = 0) := by
  constructor
  · intro env oldHandler a h
    have hfd : isFailedOwnDelivery (unwrapOnErrorError a) = true := by
      simp [isFailedOwnDelivery, truthy_of_marker h, h]
    cases oldHandler <;> by_cases hi : env.hasIntegration <;>
      simp [onErrorWrapper, hi, hfd, countCaptures,
        List.countP_cons, List.countP_nil, isCapture]
  · intro env hasOld e h
    have hfd : isFailedOwnDelivery (extractReason e) = true := by
      simp [isFailedOwnDelivery, truthy_of_marker h, h]
    by_cases hi : env.hasIntegration <;>
      simp [onRejectionWrapper, hi, hfd, countCaptures, List.countP_nil]

/-- Claim C1 witness: concrete marked failures delivered to both wrappers
produce no submission effect. -/
theorem c1_witness :
    countCaptures (onErrorWrapper env0 none ownDeliveryArgs).1 = 0 ∧
    countCaptures (onRejectionWrapper env0 true ownDeliveryRejection) = 0 :=
  ⟨c1_self_delivery_suppression.1 env0 none ownDeliveryArgs rfl,
   c1_self_delivery_suppression.2 env0 true ownDeliveryRejection rfl⟩

/-- Claim C3 counterexample: with the integration-active check failing and
a previously captured rejection handler present, the rejection wrapper
(lines 170-172) performs no effect at all — in particular it never invokes
the previous handler, so the claim that both wrappers defer to the
previous handler in the inactive state is false. -/
theorem c3_counterexample :
    envInactive.hasIntegration = false ∧
    onRejectionWrapper envInactive true (JSValue.str "boom") = [] :=
  ⟨rfl, rfl⟩

/-- Claim C3 (amended): when the integration-active check fails, the
`onerror` wrapper performs no normalization or submission and defers to
the previously captured handler with the original arguments (returning
`false` when none exists), while the rejection wrapper performs no
normalization or submission and returns a neutral no-op result immediately
without invoking the previous handler. -/
theorem c3_inactive_behavior :
    (∀ (env : Env) (a : OnErrorArgs), env.hasIntegration = false →
      (∀ h : OnErrorArgs → Bool,
        onErrorWrapper env (some h) a =
          ([Effect.callOldOnError a.msg a.url a.line a.column a.e], h a)) ∧
      onErrorWrapper env none a = ([], false)) ∧
    (∀ (env : Env) (hasOld : Bool) (e : JSValue), env.hasIntegration = false →
      onRejectionWrapper env hasOld e = []) := by
  constructor
  · intro env a hi
    refine ⟨fun h => ?_, ?_⟩ <;> simp [onErrorWrapper, hi]
  · intro env hasOld e hi
    simp [onRejectionWrapper, hi]

/-- Claim C3 witness: concrete inactive-state invocations of both
wrappers. -/
theorem c3_witness :
    onErrorWrapper envInactive (some (fun _ => true)) plainArgs =
      ([Effect.callOldOnError plainArgs.msg plainArgs.url plainArgs.line
          plainArgs.column plainArgs.e], true) ∧
    onRejectionWrapper envInactive true (JSValue.str "later boom") = [] :=
  ⟨(c3_inactive_behavior.1 envInactive plainArgs rfl).1 (fun _ => true),
   c3_inactive_behavior.2 envInactive true (JSValue.str "later boom") rfl⟩

/-- Claim C4 counterexample: in a state where the integration is active
and a previous rejection handler was captured, but the suppression
predicate returns true, the rejection wrapper returns early (lines
180-182) without ever invoking the previous handler — so the claim that
every such invocation calls the previous handler exactly once is false. -/
theorem c4_counterexample :
    envIgnore.hasIntegration = true ∧
    onRejectionWrapper envIgnore true (JSValue.str "boom") = [] :=
  ⟨rfl, rfl⟩

/-- Claim C4 (amended): with the integration active, the `onerror` wrapper
always invokes a captured previous handler with the identical original
arguments exactly once and as its final effect — after any submission —
and returns that handler's value (or `false` when none was captured); the
rejection wrapper does the same only when the failure is neither
suppressed by the ignore-predicate nor a self-delivery failure, and
otherwise returns early without invoking the previous handler. -/
theorem c4_chaining :
    (∀ (env : Env) (h : OnErrorArgs → Bool) (a : OnErrorArgs),
      env.hasIntegration = true →
      countCallOld (onErrorWrapper env (some h) a).1 = 1 ∧
      (onErrorWrapper env (some h) a).1.getLast? =
        some (Effect.callOldOnError a.msg a.url a.line a.column a.e) ∧
      (onErrorWrapper env (some h) a).2 = h a) ∧
    (∀ (env : Env) (a : OnErrorArgs), env.hasIntegration = true →
      (onErrorWrapper env none a).2 = false) ∧
    (∀ (env : Env) (e : JSValue),
      env.hasIntegration = true → env.shouldIgnoreOnError = false →
      isFailedOwnDelivery (extractReason e) = false →
      countCallOld (onRejectionWrapper env true e) = 1 ∧
      (onRejectionWrapper env true e).getLast? = some (Effect.callOldOnRejection e)) ∧
    (∀ (env : Env) (e : JSValue), env.hasIntegration = true →
      (env.shouldIgnoreOnError = true ∨ isFailedOwnDelivery (extractReason e) = true) →
      onRejectionWrapper env true e = []) := by
  refine ⟨?_, ?_, ?_, ?_⟩
  · intro env h a hi
    by_cases hc : (!env.shouldIgnoreOnError && !isFailedOwnDelivery (unwrapOnErrorError a)) = true <;>
      simp [onErrorWrapper, hi, hc, countCallOld, List.countP_append, List.countP_cons,
        List.countP_nil, isCallOld, isCapture, List.getLast?_append_cons]
  · intro env a hi
    by_cases hc : (!env.shouldIgnoreOnError && !isFailedOwnDelivery (unwrapOnErrorError a)) = true <;>
      simp [onErrorWrapper, hi, hc]
  · intro env e hi hig hfd
    simp [onRejectionWrapper, hi, hig, hfd, countCallOld, List.countP_append,
      List.countP_cons, List.countP_nil, isCallOld, isCapture, List.getLast?_append_cons]
  · intro env e hi hsup
    rcases hsup with hig | hfd
    · simp [onRejectionWrapper, hi, hig]
    · simp [onRejectionWrapper, hi, hfd]

/-- Claim C4 witness: concrete active-state invocations exercising all
four parts of the amended claim. -/
theorem c4_witness :
    countCallOld (onErrorWrapper env0 (some (fun _ => false)) plainArgs).1 = 1 ∧
    (onErrorWrapper env0 (some (fun _ => false)) plainArgs).1.getLast? =
      some (Effect.callOldOnError plainArgs.msg plainArgs.url plainArgs.line
        plainArgs.column plainArgs.e) ∧
    (onErrorWrapper env0 (some (fun _ => false)) plainArgs).2 = false ∧
    (onErrorWrapper env0 none plainArgs).2 = false ∧
    countCallOld (onRejectionWrapper env0 true (JSValue.str "r")) = 1 ∧
    onRejectionWrapper envIgnore true (JSValue.str "r") = [] := by
  refine ⟨(c4_chaining.1 env0 (fun _ => false) plainArgs rfl).1,
    (c4_chaining.1 env0 (fun _ => false) plainArgs rfl).2.1,
    (c4_chaining.1 env0 (fun _ => false) plainArgs rfl).2.2,
    c4_chaining.2.1 env0 plainArgs rfl,
    (c4_chaining.2.2.1 env0 (JSValue.str "r") rfl rfl rfl).1,
    c4_chaining.2.2.2 envIgnore (JSValue.str "r") rfl (Or.inl rfl)⟩

/-- Claim C6: on the synthetic-trace path with a string message, the input
"Uncaught TypeError: x is not a function" yields name `TypeError` and
message "x is not a function"; the input "Script error." yields an
undefined name and the message unchanged; and whenever the failure-label
pattern does not match, the name is undefined and the message is left
exactly as given. -/
theorem c6_label_parsing (env : Env) (a : OnErrorArgs) :
    ((syntheticTrace env a (.str "Uncaught TypeError: x is not a function")).name =
        .str "TypeError" ∧
      (syntheticTrace env a (.str "Uncaught TypeError: x is not a function")).message =
        .str "x is not a function") ∧
    ((syntheticTrace env a (.str "Script error.")).name = .undefined ∧
      (syntheticTrace env a (.str "Script error.")).message = .str "Script error.") ∧
    (∀ s, errorTypesMatch s = none →
      (syntheticTrace env a (.str s)).name = .undefined ∧
      (syntheticTrace env a (.str s)).message = .str s) := by
  refine ⟨⟨rfl, rfl⟩, ⟨rfl, rfl⟩, ?_⟩
  intro s hs
  constructor <;> simp [syntheticTrace, parseMsgNameMessage, hs]

/-- Claim C6 witness: a message containing a line terminator defeats the
whole-string pattern, and the synthetic trace leaves it untouched. -/
theorem c6_witness :
    errorTypesMatch "bad\nmessage" = none ∧
    (syntheticTrace env0 plainArgs (.str "bad\nmessage")).name = .undefined ∧
    (syntheticTrace env0 plainArgs (.str "bad\nmessage")).message = .str "bad\nmessage" :=
  ⟨rfl, ((c6_label_parsing env0 plainArgs).2.2 "bad\nmessage" rfl).1,
   ((c6_label_parsing env0 plainArgs).2.2 "bad\nmessage" rfl).2⟩

/-- Claim C7: rejection-reason extraction is total and never propagates an
exception — when the probe succeeds the extracted reason is the `reason`
property's value (or the input itself when none is exposed, or when the
input is falsy), and when the probe throws the exception is swallowed and
the original input is used. -/
theorem c7_reason_extraction (e : JSValue) :
    (reasonProbe e = Probe.thrown → extractReason e = e) ∧
    (∀ v, reasonProbe e = Probe.ok v →
      extractReason e = v ∧
      ((truthy e = true ∧ hasReason e = true ∧ v = getField e "reason") ∨
       ((truthy e = false ∨ hasReason e = false) ∧ v = e))) := by
  constructor
  · intro h
    simp [extractReason, h]
  · intro v h
    refine ⟨by simp [extractReason, h], ?_⟩
    cases e with
    | obj cls fs rt =>
      cases rt with
      | true => simp [reasonProbe, inReason, truthy] at h
      | false =>
        by_cases hr : (fs.lookup "reason").isSome = true
        · simp [reasonProbe, inReason, truthy, hr] at h
          exact Or.inl ⟨rfl, by simp [hasReason, hr], h.symm⟩
        · simp [reasonProbe, inReason, truthy, hr] at h
          exact Or.inr ⟨Or.inr (by simp [hasReason, hr]), h.symm⟩
    | undefined =>
      simp [reasonProbe, truthy] at h
      exact Or.inr ⟨Or.inr rfl, h.symm⟩
    | null =>
      simp [reasonProbe, truthy] at h
      exact Or.inr ⟨Or.inr rfl, h.symm⟩
    | bool b =>
      by_cases hb : truthy (JSValue.bool b) = true
      · simp [reasonProbe, inReason, hb] at h
      · simp [reasonProbe, hb] at h
        exact Or.inr ⟨Or.inr rfl, h.symm⟩
    | num n =>
      by_cases hb : truthy (JSValue.num n) = true
      · simp [reasonProbe, inReason, hb] at h
      · simp [reasonProbe, hb] at h
        exact Or.inr ⟨Or.inr rfl, h.symm⟩
    | str s =>
      by_cases hb : truthy (JSValue.str s) = true
      · simp [reasonProbe, inReason, hb] at h
      · simp [reasonProbe, hb] at h
        exact Or.inr ⟨Or.inr rfl, h.symm⟩

/-- Claim C7 witness: a concrete input with a `reason` property yields
that property's value, and a concrete input whose probe throws yields the
input itself. -/
theorem c7_witness :
    extractReason reasonedInput = JSValue.str "why" ∧
    extractReason throwingInput = throwingInput :=
  ⟨((c7_reason_extraction reasonedInput).2 (.str "why") rfl).1,
   (c7_reason_extraction throwingInput).1 rfl⟩

/-- The message-repair step changes no trace field other than `message`. -/
theorem repairMessage_fields (t : Trace) :
    (repairMessage t).mechanism = t.mechanism ∧ (repairMessage t).mode = t.mode ∧
    (repairMessage t).name = t.name ∧ (repairMessage t).stack = t.stack ∧
    (repairMessage t).original = t.original := by
  unfold repairMessage
  split <;> simp

/-- Claim C2: for every canonical stack trace and handler name (`onerror`
or `onunhandledrejection`), the telemetry event built by the event builder
(including its delegation to the incomplete-rejection builder) contains
exactly one exception value whose mechanism has handled = false and type
equal to the triggering handler name. -/
theorem c2_mechanism_uniqueness (env : Env) (t : Trace) (handler : String)
    (error : JSValue) :
    handler = "onerror" ∨ handler = "onunhandledrejection" →
    mechCount (eventFromGlobalHandler env t handler error).1 handler = 1 := by
  intro _
  by_cases hb : (handler == "onunhandledrejection" && (repairMessage t).mode == "failed") = true
  · by_cases hp : isPrimitive error = true <;>
      simp [eventFromGlobalHandler, hb, eventFromIncompleteRejection, hp, mechCount,
        List.countP_cons, List.countP_nil]
  · simp [eventFromGlobalHandler, hb, addExceptionTypeValue, eventFromStacktrace,
      mechCount, List.countP_cons, List.countP_nil]

/-- Claim C2 witness: concrete builds through both construction paths each
carry exactly one unhandled mechanism entry naming their hook. -/
theorem c2_witness :
    mechCount (eventFromGlobalHandler env0 failedTrace "onunhandledrejection"
      (JSValue.num 42)).1 "onunhandledrejection" = 1 ∧
    mechCount (eventFromGlobalHandler env0
      (syntheticTrace env0 plainArgs (.str "Uncaught TypeError: x is not a function"))
      "onerror" JSValue.undefined).1 "onerror" = 1 :=
  ⟨c2_mechanism_uniqueness env0 failedTrace "onunhandledrejection" (JSValue.num 42)
      (Or.inr rfl),
   c2_mechanism_uniqueness env0
      (syntheticTrace env0 plainArgs (.str "Uncaught TypeError: x is not a function"))
      "onerror" JSValue.undefined (Or.inl rfl)⟩

/-- Claim C8: with handler `onunhandledrejection` and a trace in mode
`failed`, the built event comes from the incomplete-rejection path: its
level is the Error severity; a primitive reason yields the single
exception value `UnhandledRejection` with the stringified-value message; a
non-primitive reason yields the sorted-own-keys message and a sanitized
copy of the reason under `extra.__serialized__`. -/
theorem c8_incomplete_rejection (env : Env) (t : Trace) (error : JSValue) :
    t.mode = "failed" →
    (eventFromGlobalHandler env t "onunhandledrejection" error).1 =
      eventFromIncompleteRejection env (repairMessage t) "onunhandledrejection" error ∧
    (eventFromGlobalHandler env t "onunhandledrejection" error).1.level =
      some Severity.error ∧
    (isPrimitive error = true →
      ∃ m, (eventFromGlobalHandler env t "onunhandledrejection" error).1.exception =
        some [{ type := .str "UnhandledRejection",
                value := .str ("Non-Error promise rejection captured with value: " ++
                  jsToString error),
                mechanism := some m }]) ∧
    (isPrimitive error = false →
      (∃ m, (eventFromGlobalHandler env t "onunhandledrejection" error).1.exception =
        some [{ type := .str "UnhandledRejection",
                value := .str ("Non-Error promise rejection captured with keys: " ++
                  env.keysToEventMessage (sortKeys (jsOwnKeys error))),
                mechanism := some m }]) ∧
      (eventFromGlobalHandler env t "onunhandledrejection" error).1.extra =
        some [("__serialized__", env.normalizeToSize error)]) := by
  intro hm
  have hmode : (repairMessage t).mode = "failed" :=
    ((repairMessage_fields t).2.1).trans hm
  refine ⟨by simp [eventFromGlobalHandler, hmode], ?_, ?_, ?_⟩
  · by_cases hp : isPrimitive error = true <;>
      simp [eventFromGlobalHandler, hmode, eventFromIncompleteRejection, hp]
  · intro hp
    refine ⟨{ data := mechData (repairMessage t), handled := false,
              type := "onunhandledrejection" }, ?_⟩
    simp [eventFromGlobalHandler, hmode, eventFromIncompleteRejection, hp]
  · intro hp
    refine ⟨⟨{ data := mechData (repairMessage t), handled := false,
               type := "onunhandledrejection" }, ?_⟩, ?_⟩ <;>
      simp [eventFromGlobalHandler, hmode, eventFromIncompleteRejection, hp]

/-- Claim C8 witness: a concrete failed-mode build for the primitive
reason 42 and for a two-key object reason. -/
theorem c8_witness :
    (eventFromGlobalHandler env0 failedTrace "onunhandledrejection"
      (JSValue.num 42)).1.level = some Severity.error ∧
    (∃ m, (eventFromGlobalHandler env0 failedTrace "onunhandledrejection"
      (JSValue.num 42)).1.exception =
        some [{ type := .str "UnhandledRejection",
                value := .str ("Non-Error promise rejection captured with value: " ++
                  jsToString (JSValue.num 42)),
                mechanism := some m }]) ∧
    (eventFromGlobalHandler env0 failedTrace "onunhandledrejection"
      twoKeyReason).1.extra =
      some [("__serialized__", env0.normalizeToSize twoKeyReason)] :=
  ⟨(c8_incomplete_rejection env0 failedTrace (JSValue.num 42) rfl).2.1,
   (c8_incomplete_rejection env0 failedTrace (JSValue.num 42) rfl).2.2.1 rfl,
   ((c8_incomplete_rejection env0 failedTrace twoKeyReason rfl).2.2.2 rfl).2⟩

/-- Claim C9 counterexample: event building does mutate a trace field
other than `mechanism` — for a trace whose message is not a string and
whose mechanism is `onerror`, the message-repair step overwrites the
message with the placeholder, so the trace is not left unchanged. -/
theorem c9_counterexample :
    isString objMessageTrace.message = false ∧
    (eventFromGlobalHandler env0 objMessageTrace "onerror" JSValue.undefined).2.message =
      JSValue.str "No error message" ∧
    (eventFromGlobalHandler env0 objMessageTrace "onerror" JSValue.undefined).2.message ≠
      objMessageTrace.message := by
  refine ⟨rfl, rfl, fun h => ?_⟩
  have h2 := congrArg isString h
  simp only [show isString (eventFromGlobalHandler env0 objMessageTrace "onerror"
    JSValue.undefined).2.message = true from rfl] at h2
  simp only [show isString objMessageTrace.message = false from rfl] at h2
  exact Bool.noConfusion h2

/-- Claim C9 (amended): event building leaves the trace's mechanism, name,
mode, stack and original fields unchanged, and leaves the message
unchanged whenever it is a string or the trace's mechanism is
`onunhandledrejection`; the only further mutation is the single
message-repair assignment, which replaces a non-string message on a
non-rejection trace. -/
theorem c9_trace_preservation (env : Env) (t : Trace) (handler : String)
    (error : JSValue) :
    (eventFromGlobalHandler env t handler error).2 = repairMessage t ∧
    (eventFromGlobalHandler env t handler error).2.mechanism = t.mechanism ∧
    (eventFromGlobalHandler env t handler error).2.mode = t.mode ∧
    (eventFromGlobalHandler env t handler error).2.name = t.name ∧
    (eventFromGlobalHandler env t handler error).2.stack = t.stack ∧
    (eventFromGlobalHandler env t handler error).2.original = t.original ∧
    (isString t.message = true ∨ t.mechanism = some "onunhandledrejection" →
      (eventFromGlobalHandler env t handler error).2.message = t.message) := by
  have h0 : (eventFromGlobalHandler env t handler error).2 = repairMessage t := by
    simp only [eventFromGlobalHandler]
    split <;> rfl
  obtain ⟨f1, f2, f3, f4, f5⟩ := repairMessage_fields t
  refine ⟨h0, h0 ▸ f1, h0 ▸ f2, h0 ▸ f3, h0 ▸ f4, h0 ▸ f5, ?_⟩
  intro hmsg
  rw [h0]
  rcases hmsg with hs | hr
  · simp [repairMessage, hs]
  · simp [repairMessage, hr]

/-- Claim C9 witness: with a string message the trace comes back from
event building entirely unchanged. -/
theorem c9_witness :
    (eventFromGlobalHandler env0 failedTrace "onerror" JSValue.undefined).2.message =
      failedTrace.message ∧
    (eventFromGlobalHandler env0 failedTrace "onerror" JSValue.undefined).2.stack =
      failedTrace.stack :=
  ⟨(c9_trace_preservation env0 failedTrace "onerror" JSValue.undefined).2.2.2.2.2.2
      (Or.inl rfl),
   (c9_trace_preservation env0 failedTrace "onerror" JSValue.undefined).2.2.2.2.1⟩

end SentryGH
